import Mathlib

/-!
Verification of the Email-Assistant repository (email_agent_langchain.py,
email_generation.py, email_langgraph.py, smtp.py).

The development shallowly embeds the four source files:

* the draft synthesizers `generate_email_content` (identical in
  email_agent_langchain.py and email_langgraph.py) and `generate_email`
  (email_generation.py), parameterized over the outcome of the opaque
  completion-service call (the call result and whether json.loads parses it);
* the sender tool `send_email_smtp` (identical in both agent files), with the
  mail transport modelled as an explicit trace of sendmail invocations so that
  "the transport is never invoked" is a statement about the trace;
* the raw SMTP helper `send_email` of smtp.py, parameterized over which of the
  five transport steps raises;
* the LangGraph orchestration loop of email_langgraph.py (`should_continue`,
  the agent/tool nodes, and the run-loop initial state), with the language
  model treated as an oracle supplying a list of assistant messages.

Python falsy checks on string-keyed dicts are embedded as follows: an absent
`subject`/`body` behaves exactly like the empty string everywhere in the
sources (both are falsy), so those fields are plain `String`; likewise an
absent `cc`/`bcc` behaves like the empty list, so those are plain
`List String`; `priority` is read through `get` with the default `"normal"`,
so its absence is kept explicit as an `Option`.
-/

/-! ## Synthesizers (email_generation.py and the generate_email_content tool) -/

/-- Result of json.loads on the completion text: each key of the expected
object may be absent (the repair loops in both synthesizers test `field not
in email_data`). -/
structure ParsedEmail where
  subject : Option String
  body : Option String
  «to» : Option (List String)
  cc : Option (List String)
  bcc : Option (List String)
  priority : Option String
deriving DecidableEq, Repr

/-- Fully shaped email object after repair: all six keys present. -/
structure EmailData where
  subject : String
  body : String
  «to» : List String
  cc : List String
  bcc : List String
  priority : String
deriving DecidableEq, Repr

/-- Outcome of the single completion-service call made by a synthesizer:
either the call returned text `raw` that json.loads parsed as `p`
(`okParsed`), or it returned text `raw` on which json.loads raised a
JSONDecodeError with message `err` (`okUnparsed`), or the call itself raised
(`exn`). -/
inductive CompletionOutcome where
  | okParsed (raw : String) (p : ParsedEmail)
  | okUnparsed (raw : String) (err : String)
  | exn (msg : String)
deriving DecidableEq, Repr

/-- Return value of a synthesizer: the repaired email object, or the
JSON-decode-error object carrying the raw completion text in its
raw_response key, or a bare error object. -/
inductive GenResult where
  | ok (data : EmailData)
  | parseError (msg : String) (raw : String)
  | errorResult (msg : String)
deriving DecidableEq, Repr

/-- Repair loop of generate_email_content (email_agent_langchain.py lines
88 to 96, identical in email_langgraph.py): a missing to, cc or bcc becomes
the empty list, a missing priority becomes the string normal, a missing
subject or body becomes the empty string. -/
def repair_fields_tool (p : ParsedEmail) : EmailData :=
  { subject := p.subject.getD ""
    body := p.body.getD ""
    «to» := p.«to».getD []
    cc := p.cc.getD []
    bcc := p.bcc.getD []
    priority := p.priority.getD "normal" }

/-- Placeholder step of generate_email_content (lines 98 to 100): if the
to field is falsy after repair, it is replaced by the single placeholder
address. -/
def ensure_recipient (d : EmailData) : EmailData :=
  if d.«to» = [] then { d with «to» := ["recipient@example.com"] } else d

/-- Repair loop of generate_email (email_generation.py line 72): a missing
to, cc or bcc becomes the empty list, and every other missing field,
priority included, becomes the empty string. -/
def repair_fields_generation (p : ParsedEmail) : EmailData :=
  { subject := p.subject.getD ""
    body := p.body.getD ""
    «to» := p.«to».getD []
    cc := p.cc.getD []
    bcc := p.bcc.getD []
    priority := p.priority.getD "" }

/-- The generate_email_content tool of email_agent_langchain.py (lines 24 to
110, identical in email_langgraph.py lines 33 to 119), as a function of the
OPENAI_API_KEY environment value and the completion-call outcome. A missing
key returns the error object before any completion call; a JSONDecodeError
is caught and returned as an error object whose raw_response key carries the
raw completion text; any other exception is caught and returned as an error
object; otherwise the parsed object is repaired and the placeholder-recipient
step applied. The function is total: no exception escapes it. -/
def generate_email_content (apiKey : Option String) (comp : CompletionOutcome) :
    GenResult :=
  match apiKey with
  | none => .errorResult "OpenAI API key not found in environment variables"
  | some _ =>
    match comp with
    | .exn m => .errorResult ("Email generation failed: " ++ m)
    | .okUnparsed raw e => .parseError ("Failed to parse JSON response: " ++ e) raw
    | .okParsed _ p => .ok (ensure_recipient (repair_fields_tool p))

/-- The generate_email function of email_generation.py (lines 8 to 84), as a
function of the completion-call outcome. A JSONDecodeError is caught and
returned as an error object carrying the raw completion text; any other
exception inside the try block is caught and returned as an error object;
otherwise the parsed object is repaired (with no placeholder-recipient step)
and returned. -/
def generate_email (comp : CompletionOutcome) : GenResult :=
  match comp with
  | .exn m => .errorResult ("API call failed: " ++ m)
  | .okUnparsed raw e => .parseError ("Failed to parse JSON response: " ++ e) raw
  | .okParsed _ p => .ok (repair_fields_generation p)

/-! ## The send_email_smtp tool (email_agent_langchain.py lines 112 to 186,
identical in email_langgraph.py lines 121 to 195) -/

/-- Sender address configured at module scope in both agent files. -/
def SENDER_EMAIL : String := ""

/-- Parsed input of send_email_smtp. Absent subject and body are embedded as
the empty string and absent cc and bcc as the empty list, since the source
only ever tests them for Python falsiness before use; priority stays an
Option because the source reads it with a get defaulting to normal. -/
structure SendDraft where
  subject : String
  body : String
  «to» : List String
  cc : List String
  bcc : List String
  priority : Option String
deriving DecidableEq, Repr

/-- A MIME message as the source builds it: a header list in insertion order
plus the attached plain-text body. -/
structure MimeMessage where
  headers : List (String × String)
  body : String
deriving DecidableEq, Repr

/-- Priority headers added by lines 148 to 154: the string high adds the
urgent markers, the string low adds the low markers, anything else adds
nothing. -/
def priority_markers (priority : String) : List (String × String) :=
  if priority = "high" then [("X-Priority", "1"), ("X-MSMail-Priority", "High")]
  else if priority = "low" then [("X-Priority", "5"), ("X-MSMail-Priority", "Low")]
  else []

/-- Headers set before the priority block: From, To and Subject always, then
Cc and Bcc only when those lists are non-empty (lines 136 to 145). -/
def base_headers (d : SendDraft) : List (String × String) :=
  [("From", SENDER_EMAIL),
   ("To", String.intercalate ", " d.«to»),
   ("Subject", d.subject)]
  ++ (if d.cc ≠ [] then [("Cc", String.intercalate ", " d.cc)] else [])
  ++ (if d.bcc ≠ [] then [("Bcc", String.intercalate ", " d.bcc)] else [])

/-- The full message constructed by lines 136 to 157. -/
def build_message (d : SendDraft) : MimeMessage :=
  { headers := base_headers d ++ priority_markers (d.priority.getD "normal")
    body := d.body }

/-- Recipient list passed to server.sendmail (lines 159 to 164): a copy of
to, extended by cc when cc is truthy, then by bcc when bcc is truthy. -/
def all_recipients (d : SendDraft) : List String :=
  let r1 := d.«to»
  let r2 := if d.cc ≠ [] then r1 ++ d.cc else r1
  if d.bcc ≠ [] then r2 ++ d.bcc else r2

/-- Return value of send_email_smtp: one of the three validation-error
strings, or the success string listing the recipients. The SMTP exception
branches of the source map transport failures to further error strings after
the transport has been invoked; the claims under verification concern only
the pre-transport checks and the content of the transport call, so the
transport itself is kept abstract and its invocations are recorded in an
explicit trace. -/
inductive SendResult where
  | errSubjectRequired
  | errBodyRequired
  | errRecipientRequired
  | sent (recipients : List String)
deriving DecidableEq, Repr

/-- One invocation of server.sendmail. -/
structure TransportCall where
  fromAddr : String
  recipients : List String
  message : MimeMessage
deriving DecidableEq, Repr

/-- The send_email_smtp tool: the three validation checks in source order
(subject at line 128, body at line 130, to at line 132), each returning its
error string immediately, and only past all three the message construction
and the single sendmail invocation. The second component is the trace of
transport calls made. -/
def send_email_smtp (d : SendDraft) : SendResult × List TransportCall :=
  if d.subject = "" then (.errSubjectRequired, [])
  else if d.body = "" then (.errBodyRequired, [])
  else if d.«to» = [] then (.errRecipientRequired, [])
  else (.sent (all_recipients d),
        [{ fromAddr := SENDER_EMAIL
           recipients := all_recipients d
           message := build_message d }])

/-! ## The raw SMTP helper (smtp.py lines 6 to 37) -/

/-- Behaviour of one step of the SMTP transaction: it either returns or
raises an exception with the given message. -/
inductive StepResult where
  | ok
  | raises (msg : String)
deriving DecidableEq, Repr

/-- Behaviour of the external SMTP library for one send_email call: what each
of the five steps of the transaction does. -/
structure SmtpTransport where
  connect : StepResult
  starttls_step : StepResult
  login : StepResult
  sendmail : StepResult
  quit : StepResult
deriving DecidableEq, Repr

/-- The body of the try block of smtp.py: the five transport steps in source
order, stopping at the first step that raises. -/
def run_smtp_steps (t : SmtpTransport) : StepResult :=
  match t.connect with
  | .raises m => .raises m
  | .ok =>
    match t.starttls_step with
    | .raises m => .raises m
    | .ok =>
      match t.login with
      | .raises m => .raises m
      | .ok =>
        match t.sendmail with
        | .raises m => .raises m
        | .ok => t.quit

/-- The send_email function of smtp.py: runs the transaction inside a try
block whose except clause catches every exception, returning True when the
whole transaction completes and False when any step raises. The Bool return
type is the embedding of the fact that no exception escapes the function. -/
def send_email (t : SmtpTransport) : Bool :=
  match run_smtp_steps t with
  | .ok => true
  | .raises _ => false

/-! ## The LangGraph orchestration loop (email_langgraph.py lines 197 to 343) -/

/-- A tool call emitted by the model: one of the two bound tools, with its
string argument. -/
inductive ToolCall where
  | generateContent (query : String)
  | sendSmtp (emailDataJson : String)
deriving DecidableEq, Repr

/-- An assistant message: its text content and the tool calls attached to it. -/
structure AIMsg where
  content : String
  tool_calls : List ToolCall
deriving DecidableEq, Repr

/-- A message in the conversation state. The content of a tool-result message
never influences routing (should_continue inspects only the tool_calls of
assistant messages), so a tool result is recorded as the call it answers. -/
inductive Msg where
  | human (content : String)
  | ai (m : AIMsg)
  | toolMsg (call : ToolCall)
deriving DecidableEq, Repr

/-- The AgentState TypedDict of email_langgraph.py lines 27 to 31. The
email_data dict is embedded as a string-keyed association list. -/
structure AgentState where
  messages : List Msg
  email_generated : Bool
  email_data : List (String × String)
  confirmation_pending : Bool
deriving DecidableEq, Repr

/-- The should_continue router (lines 201 to 210): route to the tool node
exactly when the last message carries a non-empty tool_calls attribute,
otherwise end. True stands for the tools edge and false for END. -/
def should_continue (st : AgentState) : Bool :=
  match st.messages.getLast? with
  | some (.ai m) => !m.tool_calls.isEmpty
  | _ => false

/-- Messages appended by the prebuilt tool node: one tool-result message per
tool call of the triggering assistant message. -/
def tool_node_msgs (calls : List ToolCall) : List Msg :=
  calls.map Msg.toolMsg

/-- Trace of one workflow run: the final state, the tool calls executed by
the tool node in order, and every state reached after a node ran. -/
structure RunTrace where
  final : AgentState
  calls : List ToolCall
  states : List AgentState
deriving Repr

/-- Execution of the compiled graph of create_email_workflow (lines 256 to
283) with the language model replaced by an oracle list of assistant
messages consumed in order: the agent node appends the next model message
(call_model returns only a messages update, so the other three state fields
are never written), the conditional edge applies should_continue, the tool
node executes every tool call of that message and appends their results, and
the edge from tools leads back to the agent node. An exhausted oracle ends
the run. -/
def workflow_run : List AIMsg → AgentState → RunTrace
  | [], st => ⟨st, [], []⟩
  | m :: rest, st =>
    let st1 : AgentState := { st with messages := st.messages ++ [Msg.ai m] }
    if should_continue st1 then
      let st2 : AgentState :=
        { st1 with messages := st1.messages ++ tool_node_msgs m.tool_calls }
      let r := workflow_run rest st2
      ⟨r.final, m.tool_calls ++ r.calls, st1 :: st2 :: r.states⟩
    else ⟨st1, [], [st1]⟩

/-- Initial state built by run_email_agent for each user input (lines 321 to
326): the single user message, email_generated false, an empty email_data
dict, and confirmation_pending false. -/
def initial_state (input : String) : AgentState :=
  { messages := [Msg.human input]
    email_generated := false
    email_data := []
    confirmation_pending := false }

/-! ## Theorems -/

/-- Helper: every header set before the priority block has one of the five
keys From, To, Subject, Cc, Bcc. -/
theorem base_headers_key_mem (d : SendDraft) :
    ∀ hd ∈ base_headers d,
      hd.1 = "From" ∨ hd.1 = "To" ∨ hd.1 = "Subject" ∨ hd.1 = "Cc" ∨
        hd.1 = "Bcc" := by
  intro hd hm
  unfold base_headers at hm
  by_cases hc : d.cc = [] <;> by_cases hb : d.bcc = [] <;>
    simp [hc, hb] at hm <;> aesop

/-- Helper: for a valid draft the recipient list built by the copy-and-extend
code equals the plain concatenation of to, cc and bcc. -/
theorem all_recipients_eq_append (d : SendDraft) :
    all_recipients d = d.«to» ++ d.cc ++ d.bcc := by
  unfold all_recipients
  by_cases hc : d.cc = [] <;> by_cases hb : d.bcc = [] <;> simp [hc, hb]

/-- Claim C4: in send_email_smtp the precondition checks run before any
transport call and in the order subject, body, to; the first failing check
returns its malformed-draft error immediately, and when any check fails the
transport trace is empty, so the mail transport is never invoked. -/
theorem send_checks_short_circuit (d : SendDraft) :
    (d.subject = "" → send_email_smtp d = (.errSubjectRequired, [])) ∧
    (d.subject ≠ "" → d.body = "" →
      send_email_smtp d = (.errBodyRequired, [])) ∧
    (d.subject ≠ "" → d.body ≠ "" → d.«to» = [] →
      send_email_smtp d = (.errRecipientRequired, [])) ∧
    ((d.subject = "" ∨ d.body = "" ∨ d.«to» = []) →
      (send_email_smtp d).2 = []) := by
  refine ⟨?_, ?_, ?_, ?_⟩
  · intro h; simp [send_email_smtp, h]
  · intro h1 h2; simp [send_email_smtp, h1, h2]
  · intro h1 h2 h3; simp [send_email_smtp, h1, h2, h3]
  · intro h
    unfold send_email_smtp
    split_ifs <;> simp_all

/-- Witness for claim C4 at a concrete draft with an empty subject. -/
theorem send_checks_short_circuit_spot :
    send_email_smtp
        { subject := "", body := "hello", «to» := ["a@b.c"], cc := [],
          bcc := [], priority := none } =
      (.errSubjectRequired, []) :=
  (send_checks_short_circuit _).1 rfl

/-- Claim C5: for every valid draft the recipient list handed to the mail
transport is exactly to followed by cc followed by bcc, order preserved and
duplicates kept. -/
theorem send_recipients_order (d : SendDraft) (h1 : d.subject ≠ "")
    (h2 : d.body ≠ "") (h3 : d.«to» ≠ []) :
    send_email_smtp d =
      (.sent (d.«to» ++ d.cc ++ d.bcc),
       [{ fromAddr := SENDER_EMAIL,
          recipients := d.«to» ++ d.cc ++ d.bcc,
          message := build_message d }]) := by
  simp [send_email_smtp, h1, h2, h3, all_recipients_eq_append]

/-- Witness for claim C5 at a concrete draft with a duplicated address
across to and cc: the duplicate is preserved in the transport call. -/
theorem send_recipients_order_spot :
    send_email_smtp
        { subject := "s", body := "b", «to» := ["a@x", "a@x"],
          cc := ["a@x"], bcc := ["c@y"], priority := some "normal" } =
      (.sent (["a@x", "a@x"] ++ ["a@x"] ++ ["c@y"]),
       [{ fromAddr := SENDER_EMAIL,
          recipients := ["a@x", "a@x"] ++ ["a@x"] ++ ["c@y"],
          message := build_message
            { subject := "s", body := "b", «to» := ["a@x", "a@x"],
              cc := ["a@x"], bcc := ["c@y"], priority := some "normal" } }]) :=
  send_recipients_order _ (by decide) (by decide) (by decide)

/-- Claim C6: the send operation maps priority to message headers purely as
metadata: the transported message consists of the base headers followed by
the priority markers, and the marker mapping sends high to the urgent pair,
low to the low pair, and an effective priority of normal to no markers. -/
theorem send_priority_mapping (d : SendDraft) (h1 : d.subject ≠ "")
    (h2 : d.body ≠ "") (h3 : d.«to» ≠ []) :
    (send_email_smtp d).2 =
      [{ fromAddr := SENDER_EMAIL,
         recipients := all_recipients d,
         message :=
           { headers :=
               base_headers d ++ priority_markers (d.priority.getD "normal")
             body := d.body } }] ∧
    (d.priority = some "high" →
      priority_markers (d.priority.getD "normal") =
        [("X-Priority", "1"), ("X-MSMail-Priority", "High")]) ∧
    (d.priority = some "low" →
      priority_markers (d.priority.getD "normal") =
        [("X-Priority", "5"), ("X-MSMail-Priority", "Low")]) ∧
    (d.priority.getD "normal" = "normal" →
      priority_markers (d.priority.getD "normal") = []) := by
  refine ⟨?_, ?_, ?_, ?_⟩
  · simp [send_email_smtp, h1, h2, h3, build_message]
  · intro hp; rw [hp]; decide
  · intro hp; rw [hp]; decide
  · intro hp; rw [hp]; decide

/-- Witness for claim C6 at a concrete high-priority draft. -/
theorem send_priority_mapping_spot :
    priority_markers "high" =
      [("X-Priority", "1"), ("X-MSMail-Priority", "High")] :=
  (send_priority_mapping
      { subject := "s", body := "b", «to» := ["r@x"], cc := [], bcc := [],
        priority := some "high" }
      (by decide) (by decide) (by decide)).2.1 rfl

/-- Claim C10: for every priority other than the exact strings high and low,
an absent priority field included, the priority-marker list is empty and the
message given to the transport carries no X-Priority or X-MSMail-Priority
header, exactly as for priority normal. -/
theorem send_priority_unrecognized (d : SendDraft)
    (hh : d.priority ≠ some "high") (hl : d.priority ≠ some "low") :
    priority_markers (d.priority.getD "normal") = [] ∧
    ∀ c ∈ (send_email_smtp d).2, ∀ hd ∈ c.message.headers,
      hd.1 ≠ "X-Priority" ∧ hd.1 ≠ "X-MSMail-Priority" := by
  have hm : priority_markers (d.priority.getD "normal") = [] := by
    cases hp : d.priority with
    | none => decide
    | some p =>
      have h1 : p ≠ "high" := fun h => hh (by rw [hp, h])
      have h2 : p ≠ "low" := fun h => hl (by rw [hp, h])
      simp [priority_markers, h1, h2]
  refine ⟨hm, ?_⟩
  intro c hc hd hdm
  unfold send_email_smtp at hc
  split_ifs at hc <;> simp at hc
  subst hc
  simp only [build_message] at hdm
  rw [hm, List.append_nil] at hdm
  rcases base_headers_key_mem d hd hdm with h | h | h | h | h <;>
    rw [h] <;> exact ⟨by decide, by decide⟩

/-- Witness for claim C10 at a concrete draft whose priority is the
unrecognized string urgent. -/
theorem send_priority_unrecognized_spot :
    priority_markers (("urgent" : String)) = [] ∧
    ∀ c ∈ (send_email_smtp
        { subject := "s", body := "b", «to» := ["r@x"], cc := [], bcc := [],
          priority := some "urgent" }).2,
      ∀ hd ∈ c.message.headers,
        hd.1 ≠ "X-Priority" ∧ hd.1 ≠ "X-MSMail-Priority" :=
  send_priority_unrecognized
    { subject := "s", body := "b", «to» := ["r@x"], cc := [], bcc := [],
      priority := some "urgent" }
    (by decide) (by decide)

/-- Claim C9: send_email of smtp.py is total over exceptions: it returns
true exactly when connect, starttls, login, sendmail and quit all complete,
and returns false, rather than propagating, when any step raises. -/
theorem smtp_send_email_total (t : SmtpTransport) :
    send_email t = true ↔
      (t.connect = .ok ∧ t.starttls_step = .ok ∧ t.login = .ok ∧
       t.sendmail = .ok ∧ t.quit = .ok) := by
  obtain ⟨c, s, l, m, q⟩ := t
  cases c <;> cases s <;> cases l <;> cases m <;> cases q <;>
    simp [send_email, run_smtp_steps]

/-- Witness for claim C9 at the transport on which every step completes. -/
theorem smtp_send_email_total_spot :
    send_email
        { connect := .ok, starttls_step := .ok, login := .ok,
          sendmail := .ok, quit := .ok } = true :=
  (smtp_send_email_total _).mpr ⟨rfl, rfl, rfl, rfl, rfl⟩

/-- Claim C7: when the completion output does not parse, both synthesizers
return the malformed-output error value carrying the raw completion text,
and, being total Lean functions over every completion outcome, propagate no
exception to their caller. -/
theorem synthesis_parse_error_carries_raw (raw e k : String) :
    generate_email_content (some k) (.okUnparsed raw e) =
      .parseError ("Failed to parse JSON response: " ++ e) raw ∧
    generate_email (.okUnparsed raw e) =
      .parseError ("Failed to parse JSON response: " ++ e) raw :=
  ⟨rfl, rfl⟩

/-- Claim C2, amended: on parsed completion output both synthesizers return
a draft with all six fields present; missing subject and body become the
empty string and missing to, cc, bcc become the empty list in both, but a
missing priority becomes the string normal only in generate_email_content,
while generate_email fills it with the empty string; generate_email_content
additionally replaces an empty repaired to with the placeholder address. -/
theorem synthesis_all_fields_defaults (p : ParsedEmail) (k raw : String) :
    generate_email_content (some k) (.okParsed raw p) =
      .ok { subject := p.subject.getD "", body := p.body.getD "",
            «to» := if p.«to».getD [] = [] then ["recipient@example.com"]
                    else p.«to».getD [],
            cc := p.cc.getD [], bcc := p.bcc.getD [],
            priority := p.priority.getD "normal" } ∧
    generate_email (.okParsed raw p) =
      .ok { subject := p.subject.getD "", body := p.body.getD "",
            «to» := p.«to».getD [], cc := p.cc.getD [], bcc := p.bcc.getD [],
            priority := p.priority.getD "" } := by
  constructor
  · by_cases h : p.«to».getD [] = [] <;>
      simp [generate_email_content, ensure_recipient, repair_fields_tool, h]
  · rfl

/-- Counterexample for claim C2 as stated: on a parsed object with every
field missing, generate_email fills priority with the empty string, which is
not the claimed default normal. -/
theorem generate_email_priority_default_empty :
    generate_email (.okParsed "raw" ⟨none, none, none, none, none, none⟩) =
      .ok { subject := "", body := "", «to» := [], cc := [], bcc := [],
            priority := "" } ∧
    ("" : String) ≠ "normal" :=
  ⟨rfl, by decide⟩

/-- Claim C3, amended: when the repaired to field is empty,
generate_email_content substitutes the single placeholder address, but
generate_email performs no substitution and returns the empty recipient
list unchanged. -/
theorem placeholder_recipient_policy (p : ParsedEmail) (k raw : String) :
    (p.«to».getD [] = [] →
      generate_email_content (some k) (.okParsed raw p) =
        .ok { subject := p.subject.getD "", body := p.body.getD "",
              «to» := ["recipient@example.com"], cc := p.cc.getD [],
              bcc := p.bcc.getD [],
              priority := p.priority.getD "normal" }) ∧
    (∃ d, generate_email (.okParsed raw p) = .ok d ∧
      d.«to» = p.«to».getD []) := by
  constructor
  · intro h
    simp [generate_email_content, ensure_recipient, repair_fields_tool, h]
  · exact ⟨_, rfl, rfl⟩

/-- Witness for claim C3 at a parsed object with an explicitly empty to
list. -/
theorem placeholder_recipient_policy_spot :
    generate_email_content (some "k")
        (.okParsed "raw" ⟨some "s", some "b", some [], none, none,
          some "normal"⟩) =
      .ok { subject := "s", body := "b", «to» := ["recipient@example.com"],
            cc := [], bcc := [], priority := "normal" } :=
  (placeholder_recipient_policy _ _ _).1 rfl

/-- Counterexample for claim C3 as stated: generate_email, given a parsed
object with an empty to list, returns a draft whose recipient list is empty
rather than the placeholder. -/
theorem generate_email_empty_recipient :
    generate_email
        (.okParsed "raw" ⟨some "s", some "b", some [], none, none,
          some "normal"⟩) =
      .ok { subject := "s", body := "b", «to» := [], cc := [], bcc := [],
            priority := "normal" } ∧
    ([] : List String) ≠ ["recipient@example.com"] :=
  ⟨rfl, by decide⟩

/-- Claim C8, amended: a missing model credential is handled per call, not
at startup: for every completion outcome, generate_email_content with no
OPENAI_API_KEY returns the in-band error object immediately, which is the
error the session reports turn by turn while its loop keeps running. -/
theorem missing_api_key_is_per_call (comp : CompletionOutcome) :
    generate_email_content none comp =
      .errorResult "OpenAI API key not found in environment variables" := rfl

/-- Counterexample for claim C8 as stated: with the credential absent the
synthesis tool returns a normal per-call error value, so the process has
entered its loop and reports per-call errors instead of having terminated
at startup. -/
theorem missing_api_key_reported_in_turn :
    generate_email_content none
        (.okParsed "raw" ⟨none, none, none, none, none, none⟩) =
      .errorResult "OpenAI API key not found in environment variables" := rfl

/-- Claim C1: evaluation of the LangGraph orchestrator at the failing
input: a run from the run-loop initial state in which the first model
message carries a send_email_smtp tool call executes the sender while
confirmation_pending is false in the initial state and in every state of
the run; no confirmation turn of any kind precedes the send. -/
theorem sender_invoked_without_confirmation :
    (workflow_run
        [{ content := "", tool_calls := [ToolCall.sendSmtp "draft-json"] }]
        (initial_state "Send the draft email now")).calls =
      [ToolCall.sendSmtp "draft-json"] ∧
    (initial_state "Send the draft email now").confirmation_pending = false ∧
    ∀ s ∈ (workflow_run
        [{ content := "", tool_calls := [ToolCall.sendSmtp "draft-json"] }]
        (initial_state "Send the draft email now")).states,
      s.confirmation_pending = false := by
  decide
